import Mathlib

/-!
Verification of the langflow agent-construction registry
(src/backend/langflow/interface/agents/custom.py) against its design
specification.  The Python module is embedded shallowly: each recipe
class method becomes a Lean function over explicit data, Python sets
become deduplicated lists, Python dicts become association lists, and
fallible construction returns Except.  External collaborators that the
source only calls (langchain prompt constants, toolkit classes, the
executor run loop of langflow.interface.base which is not part of the
staged sources) are modelled from the specification, each marked with a
doc comment that starts with: Modelled from the spec.
-/

/-- A language-model handle.  The source treats it as an opaque value that
is stored inside reasoning chains; a stub model is just a named value. -/
structure BaseLanguageModel where
  model_id : String
deriving DecidableEq, Repr

/-- A conversational-memory handle, opaque to the construction layer. -/
structure BaseChatMemory where
  memory_id : String
deriving DecidableEq, Repr

/-- A structured prompt: raw template text, the still-required input
variables, and the variables already bound to precomputed strings (the
partial bindings of the spec; the field is named bound_variables here). -/
structure PromptTemplate where
  template : String
  input_variables : List String
  bound_variables : List (String × String)
deriving DecidableEq, Repr

/-- A reasoning chain: a model bound to an assembled prompt. -/
structure LLMChain where
  llm : BaseLanguageModel
  prompt : PromptTemplate
deriving DecidableEq, Repr

/-- Join a list of strings with a separator (structural recursion so that
concrete instances evaluate inside the kernel). -/
def joinWith (sep : String) : List String → String
  | [] => ""
  | x :: xs => xs.foldl (fun acc y => acc ++ (sep ++ y)) x

/-- Modelled from the spec: an open database connection produced from a
URI, carrying the dialect used to parameterize the SQL prompt
(SQLDatabase of langchain, an external collaborator). -/
structure SQLDatabase where
  uri : String
  dialect : String
deriving DecidableEq, Repr

/-- Modelled from the spec: SQLDatabase.from_uri opens the connection and
derives the dialect from the URI scheme. -/
def SQLDatabase_from_uri (database_uri : String) : SQLDatabase :=
  { uri := database_uri
    dialect := String.mk ((database_uri.toList.takeWhile (fun c => c ≠ ':')).takeWhile (fun c => c ≠ '+')) }

/-- A tool: a named capability.  The optional db field records which open
database connection a relational tool is bound to, and the optional
llm_chain field records a secondary reasoning chain carried by the tool
(both none for ordinary tools). -/
structure Tool where
  name : String
  description : String
  db : Option SQLDatabase
  llm_chain : Option LLMChain
deriving DecidableEq, Repr

/-- The agent object: a reasoning chain plus the allow-list of tool
names.  The source builds the allow-list as a Python set comprehension;
here the set is the deduplicated list of names. -/
structure ZeroShotAgent where
  llm_chain : LLMChain
  allowed_tools : List String
deriving DecidableEq, Repr

/-- The uniform runtime object every recipe returns. -/
structure AgentExecutor where
  agent : ZeroShotAgent
  tools : List Tool
  verbose : Bool
  max_iterations : Option Nat
  early_stopping_method : String
  handle_parsing_errors : Bool
  return_intermediate_steps : Bool
  memory : Option BaseChatMemory
deriving DecidableEq, Repr

/-- Python set construction over tool names: one entry per distinct name,
duplicates silently merged.  (Which duplicate survives is irrelevant:
equal names are equal strings.) -/
def pySet (xs : List String) : List String := xs.dedup

/-- Modelled from the spec: the framework format-instructions text, a
fixed template that names the allowed tools (FORMAT_INSTRUCTIONS of the
mrkl prompt module, formatted with tool_names at assembly time). -/
def format_instructions_for (tool_names : String) : String :=
  "Use the following format: Question, Thought, Action: one of [" ++ (tool_names ++ "], Action Input, Observation, Final Answer")

/-- Modelled from the spec: PromptAssembler — ZeroShotAgent.create_prompt
of langchain.  It renders one line per tool, fills the tool names into
the format instructions, concatenates prefix, tool lines, format
instructions and suffix, and defaults the input variables to
[input, agent_scratchpad] when none are given.  No tool-name validation
is performed. -/
def create_prompt (tools : List Tool) (pre suf : String)
    (input_variables : Option (List String)) : PromptTemplate :=
  let tool_strings := joinWith "\n" (tools.map (fun t => t.name ++ (": " ++ t.description)))
  let tool_names := joinWith ", " (tools.map Tool.name)
  { template := pre ++ ("\n\n" ++ (tool_strings ++ ("\n\n" ++ (format_instructions_for tool_names ++ ("\n\n" ++ suf)))))
    input_variables := input_variables.getD ["input", "agent_scratchpad"]
    bound_variables := [] }

/-- Binding a variable of a prompt to a precomputed string: the variable
leaves the still-required input variables, the raw template text is
unchanged (PromptTemplate.partial of langchain, per the spec). -/
def PromptTemplate.bindVar (p : PromptTemplate) (x v : String) : PromptTemplate :=
  { template := p.template
    input_variables := p.input_variables.filter (fun y => y != x)
    bound_variables := p.bound_variables ++ [(x, v)] }

/-- Defaults of the AgentExecutor fields the recipes leave unset (the
langchain AgentExecutor declares max_iterations = 15,
early_stopping_method = force and handle_parsing_errors = False). -/
def default_max_iterations : Option Nat := some 15

/-- Default early-stopping policy of the executor (see default_max_iterations). -/
def default_early_stopping_method : String := "force"

/-- Default parsing-error policy of the executor: disabled unless a
recipe passes handle_parsing_errors=True explicitly. -/
def default_handle_parsing_errors : Bool := false

/-- The shared executor constructor behind cls.from_agent_and_tools and
AgentExecutor.from_agent_and_tools: it records the agent, the tool list
and the execution options.  All options are passed explicitly here; a
recipe that omits one in the source passes the corresponding default. -/
def from_agent_and_tools (agent : ZeroShotAgent) (tools : List Tool)
    (verbose : Bool) (max_iterations : Option Nat)
    (early_stopping_method : String) (handle_parsing_errors : Bool)
    (return_intermediate_steps : Bool) (memory : Option BaseChatMemory) : AgentExecutor :=
  { agent := agent, tools := tools, verbose := verbose
    max_iterations := max_iterations
    early_stopping_method := early_stopping_method
    handle_parsing_errors := handle_parsing_errors
    return_intermediate_steps := return_intermediate_steps
    memory := memory }

/-- Modelled from the spec: the JSON toolkit prompt constants (external
prompt text; the exact words are outside the staged sources). -/
def JSON_PREF : String := "You are an agent designed to interact with JSON."

/-- Modelled from the spec: the JSON suffix constant. -/
def JSON_SUFFIX : String := "Begin! Question: {input} Thought: {agent_scratchpad}"

/-- JsonAgent.from_toolkit_and_llm: gathers the toolkit tools, builds the
allow-list as a set of names, assembles the JSON prompt, wraps the chain
into a ZeroShotAgent and returns the executor with verbose=True and every
other option at its default.  The toolkit-or-list acceptance of the
source is normalized to the tool list here. -/
def JsonAgent_from_toolkit_and_llm (toolkit : List Tool) (llm : BaseLanguageModel) : AgentExecutor :=
  let tools := toolkit
  let tool_names := pySet (tools.map Tool.name)
  let prompt := create_prompt tools JSON_PREF JSON_SUFFIX none
  let llm_chain : LLMChain := { llm := llm, prompt := prompt }
  let agent : ZeroShotAgent := { llm_chain := llm_chain, allowed_tools := tool_names }
  from_agent_and_tools agent tools true default_max_iterations
    default_early_stopping_method default_handle_parsing_errors false none

/-- Construction-time error taxonomy of the recipes that can fail. -/
inductive ConstructErr
  | DataLoadError
  | UnsupportedStrategyError
deriving DecidableEq, Repr

/-- Error taxonomy of the PromptAssembler contract as the spec words it. -/
inductive AssembleError
  | ToolNameCollisionError
deriving DecidableEq, Repr

/-- The PromptAssembler contract exactly as the spec words it: assembly
fails with ToolNameCollisionError when two tools share a name.  This is
the spec-side definition used to compare against the source behaviour,
which never performs this validation. -/
def assemble_spec (tools : List Tool) (pre suf : String)
    (input_variables : Option (List String)) : Except AssembleError PromptTemplate :=
  if (tools.map Tool.name).Nodup then Except.ok (create_prompt tools pre suf input_variables)
  else Except.error AssembleError.ToolNameCollisionError

/-- An in-memory table: column names plus rows of cells. -/
structure DataFrame where
  columns : List String
  rows : List (List String)
deriving DecidableEq, Repr

/-- Split a character list at every occurrence of a separator character. -/
def splitOnChar (c : Char) : List Char → List (List Char)
  | [] => [[]]
  | x :: xs =>
    let r := splitOnChar c xs
    if x = c then [] :: r
    else
      match r with
      | [] => [[x]]
      | y :: ys => (x :: y) :: ys

/-- The lines of a string. -/
def splitLines (s : String) : List String :=
  (splitOnChar '\n' s.toList).map (fun cs => String.mk cs)

/-- The comma-separated fields of one line. -/
def splitFields (s : String) : List String :=
  (splitOnChar ',' s.toList).map (fun cs => String.mk cs)

/-- Modelled from the spec: pandas read_csv over the file content — loads
the external file into an in-memory table before tool creation, failing
with DataLoadError when the source cannot be parsed (empty input or a
row whose width differs from the header). -/
def read_csv (content : String) : Except ConstructErr DataFrame :=
  match (splitLines content).filter (fun l => l != "") with
  | [] => Except.error ConstructErr.DataLoadError
  | header :: rest =>
    let cols := splitFields header
    let rows := rest.map splitFields
    if rows.all (fun r => r.length == cols.length) then Except.ok { columns := cols, rows := rows }
    else Except.error ConstructErr.DataLoadError

/-- The head of a table: its first five rows (the pandas default). -/
def DataFrame.head (df : DataFrame) : DataFrame :=
  { columns := df.columns, rows := df.rows.take 5 }

/-- Modelled from the spec: the textual preview str(df.head()) of a table. -/
def dfHeadStr (df : DataFrame) : String :=
  joinWith "\n" (joinWith " " df.columns :: df.rows.map (joinWith " "))

/-- Modelled from the spec: the single generated tool wrapping an
in-memory table evaluator (PythonAstREPLTool with the table in scope). -/
def python_ast_repl_tool : Tool :=
  { name := "python_repl_ast"
    description := "A Python shell evaluating expressions over the loaded table."
    db := none, llm_chain := none }

/-- Modelled from the spec: the pandas toolkit prompt constants. -/
def PANDAS_PREF : String := "You are working with a pandas dataframe in Python named df."

/-- Modelled from the spec: the pandas suffix constant, which references
the bound df preview variable. -/
def PANDAS_SUFFIX : String := "This is the result of the head of df: {df} Begin! Question: {input} {agent_scratchpad}"

/-- The prompt the CSV recipe assembles before binding df. -/
def csv_base_prompt : PromptTemplate :=
  create_prompt [python_ast_repl_tool] PANDAS_PREF PANDAS_SUFFIX
    (some ["df", "input", "agent_scratchpad"])

/-- The CSV prompt after df is bound to the textual preview of the head. -/
def csv_bound_prompt (df : DataFrame) : PromptTemplate :=
  csv_base_prompt.bindVar "df" (dfHeadStr df.head)

/-- CSVAgent.from_toolkit_and_llm: parses the file content into a table
(pandas read_csv), creates the single table-evaluator tool, assembles the
pandas prompt with input variables [df, input, agent_scratchpad], binds
df to the preview of the head, and returns the executor with verbose=True
and every other option at its default. -/
def CSVAgent_from_toolkit_and_llm (csv_content : String) (llm : BaseLanguageModel) : Except ConstructErr AgentExecutor :=
  match read_csv csv_content with
  | Except.error e => Except.error e
  | Except.ok df =>
    let tools := [python_ast_repl_tool]
    let bound_prompt := csv_bound_prompt df
    let llm_chain : LLMChain := { llm := llm, prompt := bound_prompt }
    let tool_names := pySet (tools.map Tool.name)
    let agent : ZeroShotAgent := { llm_chain := llm_chain, allowed_tools := tool_names }
    Except.ok (from_agent_and_tools agent tools true default_max_iterations
      default_early_stopping_method default_handle_parsing_errors false none)

/-- Modelled from the spec: the vector-store prompt constant. -/
def VECTORSTORE_PREF : String := "You are an agent designed to answer questions about sets of documents."

/-- Modelled from the spec: the router prompt constant. -/
def VECTORSTORE_ROUTER_PREF : String := "You are an agent designed to route between vector stores."

/-- Modelled from the spec: the framework default suffix used when a
recipe passes only a prefix to the assembler. -/
def SUFFIX_DEFAULT : String := "Begin! Question: {input} Thought: {agent_scratchpad}"

/-- A vector-store handle: name, description and backing store. -/
structure VectorStoreInfo where
  name : String
  description : String
deriving DecidableEq, Repr

/-- Modelled from the spec: VectorStoreToolkit(vectorstore_info, llm)
followed by get_tools — the toolkit generated from one vector-store
handle plus the model, exposing a query tool and a sourced-query tool. -/
def vector_store_toolkit_tools (info : VectorStoreInfo) : List Tool :=
  [{ name := info.name, description := info.description, db := none, llm_chain := none },
   { name := info.name ++ "_with_sources", description := info.description, db := none, llm_chain := none }]

/-- VectorStoreAgent.from_toolkit_and_llm: builds the toolkit from the
handle and model, assembles the prompt from the vector-store prefix only,
and returns the executor with verbose=True and handle_parsing_errors=True. -/
def VectorStoreAgent_from_toolkit_and_llm (llm : BaseLanguageModel) (vectorstoreinfo : VectorStoreInfo) : AgentExecutor :=
  let tools := vector_store_toolkit_tools vectorstoreinfo
  let prompt := create_prompt tools VECTORSTORE_PREF SUFFIX_DEFAULT none
  let llm_chain : LLMChain := { llm := llm, prompt := prompt }
  let tool_names := pySet (tools.map Tool.name)
  let agent : ZeroShotAgent := { llm_chain := llm_chain, allowed_tools := tool_names }
  from_agent_and_tools agent tools true default_max_iterations
    default_early_stopping_method true false none

/-- VectorStoreRouterAgent.from_toolkit_and_llm: same shape as the
vector-store recipe with the router prefix; the toolkit-or-list
acceptance of the source is normalized to the tool list here. -/
def VectorStoreRouterAgent_from_toolkit_and_llm (llm : BaseLanguageModel) (router_tools : List Tool) : AgentExecutor :=
  let tools := router_tools
  let prompt := create_prompt tools VECTORSTORE_ROUTER_PREF SUFFIX_DEFAULT none
  let llm_chain : LLMChain := { llm := llm, prompt := prompt }
  let tool_names := pySet (tools.map Tool.name)
  let agent : ZeroShotAgent := { llm_chain := llm_chain, allowed_tools := tool_names }
  from_agent_and_tools agent tools true default_max_iterations
    default_early_stopping_method true false none

/-- Modelled from the spec: the query-checker prompt template of the
sql_database tool module; its query and dialect variables are filled only
at chain invocation time. -/
def QUERY_CHECKER : String := "Double check the {dialect} query above for common mistakes: {query}"

/-- Modelled from the spec: the SQL prompt parameterized by the dialect
of the connection and a row-limit constant (SQL_PREFIX.format). -/
def sql_pref_for (dialect : String) (top_k : Nat) : String :=
  "You are an agent designed to interact with a " ++ (dialect ++ (" SQL database, returning at most " ++ (toString top_k ++ " results.")))

/-- Modelled from the spec: the SQL suffix constant. -/
def SQL_SUF : String := "Begin! Question: {input} Thought: I should look at the tables. {agent_scratchpad}"

/-- Modelled from the spec: the run-query tool, bound to one open
database connection (QuerySQLDataBaseTool). -/
def query_sql_tool (db : SQLDatabase) : Tool :=
  { name := "run-query", description := "Execute a SQL query against the database.", db := some db, llm_chain := none }

/-- Modelled from the spec: the describe-schema tool (InfoSQLDatabaseTool). -/
def info_sql_tool (db : SQLDatabase) : Tool :=
  { name := "describe-schema", description := "Describe the schema of given tables.", db := some db, llm_chain := none }

/-- Modelled from the spec: the list-tables tool (ListSQLDatabaseTool). -/
def list_sql_tool (db : SQLDatabase) : Tool :=
  { name := "list-tables", description := "List the tables of the database.", db := some db, llm_chain := none }

/-- Modelled from the spec: the check-query-syntax tool, carrying its own
secondary query-checking reasoning chain (QuerySQLCheckerTool). -/
def checker_sql_tool (db : SQLDatabase) (chain : LLMChain) : Tool :=
  { name := "check-query-syntax", description := "Check the query syntax before executing it.", db := some db, llm_chain := some chain }

/-- SQLAgent.from_toolkit_and_llm: opens the connection from the URI,
builds the secondary query-checking chain over the QUERY_CHECKER
template, creates the four tools bound to that one connection, formats
the SQL prompt with the dialect and the row-limit constant 10, and
returns the executor with verbose=True, max_iterations=15,
early_stopping_method=force and handle_parsing_errors=True. -/
def SQLAgent_from_toolkit_and_llm (llm : BaseLanguageModel) (database_uri : String) : AgentExecutor :=
  let db := SQLDatabase_from_uri database_uri
  let llmchain : LLMChain :=
    { llm := llm
      prompt := { template := QUERY_CHECKER, input_variables := ["query", "dialect"], bound_variables := [] } }
  let tools := [query_sql_tool db, info_sql_tool db, list_sql_tool db, checker_sql_tool db llmchain]
  let pre := sql_pref_for db.dialect 10
  let prompt := create_prompt tools pre SQL_SUF none
  let llm_chain : LLMChain := { llm := llm, prompt := prompt }
  let tool_names := pySet (tools.map Tool.name)
  let agent : ZeroShotAgent := { llm_chain := llm_chain, allowed_tools := tool_names }
  from_agent_and_tools agent tools true (some 15) "force" true false none

/-- Modelled from the spec: the closed set of framework strategy names
(the values of the AgentType enumeration the generic initializer
validates against). -/
def AgentTypeValues : List String :=
  ["zero-shot-react-description", "react-docstore", "self-ask-with-search",
   "conversational-react-description", "chat-zero-shot-react-description",
   "chat-conversational-react-description", "structured-chat-zero-shot-react-description"]

/-- Modelled from the spec: the framework-selected built-in template for
a recognized strategy name. -/
def builtin_prompt (strategy : String) (tools : List Tool) : PromptTemplate :=
  create_prompt tools ("Strategy: " ++ strategy) SUFFIX_DEFAULT none

/-- InitializeAgent.initialize: validates the strategy name against the
closed set (the AgentType lookup of the source, whose failure the spec
names UnsupportedStrategyError), then builds the framework executor with
return_intermediate_steps=True and handle_parsing_errors=True. -/
def InitializeAgent_init (llm : BaseLanguageModel) (tools : List Tool)
    (agent : String) (memory : Option BaseChatMemory) : Except ConstructErr AgentExecutor :=
  if AgentTypeValues.contains agent then
    let prompt := builtin_prompt agent tools
    let llm_chain : LLMChain := { llm := llm, prompt := prompt }
    let zs : ZeroShotAgent := { llm_chain := llm_chain, allowed_tools := pySet (tools.map Tool.name) }
    Except.ok (from_agent_and_tools zs tools false default_max_iterations
      default_early_stopping_method true true memory)
  else Except.error ConstructErr.UnsupportedStrategyError

/-- The autonomous-loop agent object: persona plus tools and model, with
the fields the source mutates after construction (output_keys and whether
the asynchronous call method has been replaced). -/
structure AutoGPTR where
  ai_name : String
  ai_role : String
  tools : List Tool
  llm : BaseLanguageModel
  memory : Option BaseChatMemory
  output_keys : List String
  acall_replaced : Bool
deriving DecidableEq, Repr

/-- Modelled from the spec: AutoGPT.from_llm_and_tools of the external
reasoning-loop component — builds the agent from persona, tools, model
and memory; it declares no output_keys attribute and its own
asynchronous call method. -/
def AutoGPT_from_llm_and_tools (ai_name ai_role : String) (tools : List Tool)
    (llm : BaseLanguageModel) (memory : Option BaseChatMemory) : AutoGPTR :=
  { ai_name := ai_name, ai_role := ai_role, tools := tools, llm := llm
    memory := memory, output_keys := [], acall_replaced := false }

/-- AutoGPTAgent.initialize: constructs the AutoGPT agent and then
mutates it after the fact, replacing its asynchronous call method with
AutoGPTAgent._acall and setting output_keys to the fixed list [fred]. -/
def AutoGPTAgent_init (ai_name ai_role : String) (llm : BaseLanguageModel)
    (tools : List Tool) (memory : Option BaseChatMemory) : AutoGPTR :=
  let agent := AutoGPT_from_llm_and_tools ai_name ai_role tools llm memory
  { agent with acall_replaced := true, output_keys := ["fred"] }

/-- One entry of the intermediate-steps list the replacement call returns. -/
structure IntermediateStep where
  index : Nat
  result : String
deriving DecidableEq, Repr

/-- The callbacks argument of the replacement asynchronous call. -/
abbrev Callbacks := Option (List String)

/-- AutoGPTAgent._acall: the replacement asynchronous call method.  Its
Python body only prints its arguments and returns one fixed dict, here an
association list keyed by intermediate_steps; no key of the result holds
a final answer. -/
def AutoGPTAgent_acall (_chat_input : String) (_callbacks : Callbacks) : List (String × List IntermediateStep) :=
  [("intermediate_steps", [{ index := 1, result := "fake data" }])]

/-- One proposal of the reasoning chain at a step of the run loop: a tool
invocation, a final answer, or malformed step output. -/
inductive ModelStep
  | toolCall (name input : String)
  | finalAnswer (text : String)
  | malformed (raw : String)
deriving DecidableEq, Repr

/-- The terminal states of one executor run. -/
inductive RunState
  | Succeeded (answer : String)
  | Failed
  | StoppedByLimit (answer : String)
deriving DecidableEq, Repr

/-- Modelled from the spec: the non-empty partial answer the executor
returns when the iteration budget is exhausted under the force policy. -/
def forcedAnswer : String := "Agent stopped due to iteration limit."

/-- Modelled from the spec: one round of the executor run loop of
CustomAgentExecutor (langflow.interface.base, not among the staged
sources; the loop is specified by the state machine of the spec).  At
step i with the given remaining budget: a final answer succeeds; a tool
invocation whose name is outside the allow-list is treated as a
parse/format error; parse/format errors recover and consume one
iteration when handle_parsing_errors is set and fail the run otherwise;
a run out of budget stops with the forced partial answer under the force
policy and fails otherwise.  Tool invocations themselves are assumed not
to throw (tool failures are external unrecoverable errors). -/
def runLoopAux (ex : AgentExecutor) (model : Nat → ModelStep) : Nat → Nat → RunState
  | _, 0 =>
    if ex.early_stopping_method = "force" then RunState.StoppedByLimit forcedAnswer
    else RunState.Failed
  | i, Nat.succ fuel =>
    match model i with
    | ModelStep.finalAnswer t => RunState.Succeeded t
    | ModelStep.toolCall nm _ =>
      if nm ∈ ex.agent.allowed_tools then runLoopAux ex model (i + 1) fuel
      else if ex.handle_parsing_errors then runLoopAux ex model (i + 1) fuel
      else RunState.Failed
    | ModelStep.malformed _ =>
      if ex.handle_parsing_errors then runLoopAux ex model (i + 1) fuel
      else RunState.Failed

/-- Modelled from the spec: run — drives the loop from step zero with the
configured maximum iteration count as the budget. -/
def runExecutor (ex : AgentExecutor) (model : Nat → ModelStep) : RunState :=
  runLoopAux ex model 0 (ex.max_iterations.getD 15)

/-- The seven agent kinds the registry holds. -/
inductive AgentClass
  | jsonAgent
  | csvAgent
  | agentInitializer
  | vectorStoreAgent
  | vectorStoreRouterAgent
  | sqlAgent
  | autoGPTAgent
deriving DecidableEq, Repr

/-- The self-description operation of each recipe class (the static
function_name methods of the source). -/
def function_name : AgentClass → String
  | AgentClass.jsonAgent => "JsonAgent"
  | AgentClass.csvAgent => "CSVAgent"
  | AgentClass.agentInitializer => "AgentInitializer"
  | AgentClass.vectorStoreAgent => "VectorStoreAgent"
  | AgentClass.vectorStoreRouterAgent => "VectorStoreRouterAgent"
  | AgentClass.sqlAgent => "SQLAgent"
  | AgentClass.autoGPTAgent => "AutoGPTAgent"

/-- The CUSTOM_AGENTS registry table of the source, in source order: a
Python dict embedded as an association list from kind string to recipe. -/
def CUSTOM_AGENTS : List (String × AgentClass) :=
  [("JsonAgent", AgentClass.jsonAgent),
   ("CSVAgent", AgentClass.csvAgent),
   ("AgentInitializer", AgentClass.agentInitializer),
   ("VectorStoreAgent", AgentClass.vectorStoreAgent),
   ("VectorStoreRouterAgent", AgentClass.vectorStoreRouterAgent),
   ("SQLAgent", AgentClass.sqlAgent),
   ("AutoGPTAgent", AgentClass.autoGPTAgent)]

/-- The registry lookup error of the spec taxonomy. -/
inductive RegistryError
  | UnknownKindError
deriving DecidableEq, Repr

/-- Modelled from the spec: resolve(kind) — the registry lookup surface,
failing with UnknownKindError when the kind string is absent (the dict
lookup on CUSTOM_AGENTS performed by the callers of this module). -/
def resolve (kind : String) : Except RegistryError AgentClass :=
  match CUSTOM_AGENTS.lookup kind with
  | some c => Except.ok c
  | none => Except.error RegistryError.UnknownKindError

/-- The kind-specific keyword configuration of the construction surface:
one record holding every option a recipe recognizes. -/
structure KindConfig where
  toolkit : List Tool
  llm : BaseLanguageModel
  csv_content : String
  vectorstoreinfo : VectorStoreInfo
  router_tools : List Tool
  database_uri : String
  agent : String
  memory : Option BaseChatMemory
  ai_name : String
  ai_role : String
deriving DecidableEq, Repr

/-- What a recipe constructs: a uniform executor, or the autonomous-loop
agent object of the AutoGPT recipe. -/
inductive Constructed
  | exec (e : AgentExecutor)
  | auto (a : AutoGPTR)
deriving DecidableEq, Repr

/-- The uniform construction surface: dispatches the configuration to the
initialize classmethod of the resolved recipe.  The inner Option records
that every return statement of the source yields an actual object (none
would model a Python method falling through and returning None, which no
recipe does). -/
def construct (c : AgentClass) (cfg : KindConfig) : Except ConstructErr (Option Constructed) :=
  match c with
  | AgentClass.jsonAgent =>
    Except.ok (some (Constructed.exec (JsonAgent_from_toolkit_and_llm cfg.toolkit cfg.llm)))
  | AgentClass.csvAgent =>
    match CSVAgent_from_toolkit_and_llm cfg.csv_content cfg.llm with
    | Except.ok e => Except.ok (some (Constructed.exec e))
    | Except.error e => Except.error e
  | AgentClass.agentInitializer =>
    match InitializeAgent_init cfg.llm cfg.toolkit cfg.agent cfg.memory with
    | Except.ok e => Except.ok (some (Constructed.exec e))
    | Except.error e => Except.error e
  | AgentClass.vectorStoreAgent =>
    Except.ok (some (Constructed.exec (VectorStoreAgent_from_toolkit_and_llm cfg.llm cfg.vectorstoreinfo)))
  | AgentClass.vectorStoreRouterAgent =>
    Except.ok (some (Constructed.exec (VectorStoreRouterAgent_from_toolkit_and_llm cfg.llm cfg.router_tools)))
  | AgentClass.sqlAgent =>
    Except.ok (some (Constructed.exec (SQLAgent_from_toolkit_and_llm cfg.llm cfg.database_uri)))
  | AgentClass.autoGPTAgent =>
    Except.ok (some (Constructed.auto (AutoGPTAgent_init cfg.ai_name cfg.ai_role cfg.llm cfg.toolkit cfg.memory)))

/-- A configuration is valid for a kind when the construction
preconditions of that kind hold: a parsable table for the CSV recipe and
a recognized strategy name for the generic initializer. -/
def validConfig (c : AgentClass) (cfg : KindConfig) : Bool :=
  match c with
  | AgentClass.csvAgent =>
    match read_csv cfg.csv_content with
    | Except.ok _ => true
    | Except.error _ => false
  | AgentClass.agentInitializer => AgentTypeValues.contains cfg.agent
  | _ => true

/-- Whether construction yielded an actual object (not an error and not
the None outcome). -/
def constructSome (c : AgentClass) (cfg : KindConfig) : Bool :=
  match construct c cfg with
  | Except.ok (some _) => true
  | _ => false

/-- The tool allow-list of a constructed object (for the autonomous-loop
agent, the names of its caller-supplied tools). -/
def allowListOf : Constructed → List String
  | Constructed.exec e => e.agent.allowed_tools
  | Constructed.auto a => pySet (a.tools.map Tool.name)

/-- The assembled prompt text of a constructed object (for the
autonomous-loop agent, the persona-driven system prompt its component
builds internally, per the spec). -/
def promptTextOf : Constructed → String
  | Constructed.exec e => e.agent.llm_chain.prompt.template
  | Constructed.auto a => "You are " ++ (a.ai_name ++ (", " ++ a.ai_role))

/-- The parsing-error recovery flag of a constructed object, when it is a
uniform executor (the autonomous-loop agent has no such policy). -/
def parsing_policy : Constructed → Option Bool
  | Constructed.exec e => some e.handle_parsing_errors
  | Constructed.auto _ => none

/-- Which parsing-error policy each recipe actually configures. -/
def expected_parsing_policy : AgentClass → Option Bool
  | AgentClass.vectorStoreAgent => some true
  | AgentClass.vectorStoreRouterAgent => some true
  | AgentClass.sqlAgent => some true
  | AgentClass.agentInitializer => some true
  | AgentClass.autoGPTAgent => none
  | AgentClass.jsonAgent => some false
  | AgentClass.csvAgent => some false

/-- The prompt carried by a fallible construction result, when the
construction succeeded. -/
def promptOfR : Except ConstructErr AgentExecutor → Option PromptTemplate
  | Except.ok e => some e.agent.llm_chain.prompt
  | Except.error _ => none

/-- A stub deterministic model value. -/
def llm0 : BaseLanguageModel := { model_id := "stub-llm" }

/-- A concrete tool named t. -/
def tool_t1 : Tool := { name := "t", description := "first tool", db := none, llm_chain := none }

/-- A second, distinct tool that shares the name t. -/
def tool_t2 : Tool := { name := "t", description := "second tool", db := none, llm_chain := none }

/-- A tool list holding two distinct tools with the same name. -/
def dupTools : List Tool := [tool_t1, tool_t2]

/-- A small collision-free tool list. -/
def demoTools : List Tool :=
  [{ name := "json_spec_list_keys", description := "List the keys of the document.", db := none, llm_chain := none }]

/-- A concrete CSV file content with columns a, b and one row. -/
def content0 : String := "a,b\nx,y"

/-- The table content0 parses to. -/
def df0 : DataFrame := { columns := ["a", "b"], rows := [["x", "y"]] }

/-- A concrete valid configuration. -/
def cfg0 : KindConfig :=
  { toolkit := demoTools, llm := llm0, csv_content := content0
    vectorstoreinfo := { name := "store", description := "docs" }
    router_tools := [], database_uri := "sqlite:///db"
    agent := "zero-shot-react-description", memory := none
    ai_name := "Tom", ai_role := "assistant" }

/-- cfg0 with the colliding tool list. -/
def cfgDup : KindConfig := { cfg0 with toolkit := dupTools }

/-- The executor the JSON recipe constructs from the colliding tool list. -/
def jsonDupExec : AgentExecutor := JsonAgent_from_toolkit_and_llm dupTools llm0

/-- The object the JSON recipe constructs from cfg0. -/
def jsonExec0 : Constructed := Constructed.exec (JsonAgent_from_toolkit_and_llm demoTools llm0)

/-- The object the vector-store recipe constructs from cfg0. -/
def vsExec0 : Constructed :=
  Constructed.exec (VectorStoreAgent_from_toolkit_and_llm llm0 { name := "store", description := "docs" })

/-- A model stub that never emits a final answer. -/
def stubModel : Nat → ModelStep := fun _ => ModelStep.toolCall "run-query" "SELECT 1"

/-- With parsing-error recovery on and the force policy, a model that
never proposes a final answer drives the loop to the end of its budget
and the run stops with the forced partial answer. -/
theorem runLoopAux_stops_of_no_final (ex : AgentExecutor) (model : Nat → ModelStep)
    (hne : ∀ i t, model i ≠ ModelStep.finalAnswer t)
    (hp : ex.handle_parsing_errors = true)
    (hf : ex.early_stopping_method = "force") :
    ∀ fuel i, runLoopAux ex model i fuel = RunState.StoppedByLimit forcedAnswer := by
  intro fuel
  induction fuel with
  | zero => intro i; simp [runLoopAux, hf]
  | succ k ih =>
    intro i
    cases hm : model i with
    | finalAnswer t => exact absurd hm (hne i t)
    | toolCall nm inp =>
      by_cases hmem : nm ∈ ex.agent.allowed_tools
      · simp [runLoopAux, hm, hmem, ih]
      · simp [runLoopAux, hm, hmem, hp, ih]
    | malformed r => simp [runLoopAux, hm, hp, ih]

/-- An executor handed out by the CSV recipe always carries the default
(disabled) parsing-error policy. -/
theorem csv_flag (s : String) (l : BaseLanguageModel) (e : AgentExecutor)
    (h : CSVAgent_from_toolkit_and_llm s l = Except.ok e) :
    e.handle_parsing_errors = false := by
  unfold CSVAgent_from_toolkit_and_llm at h
  cases hr : read_csv s with
  | ok df => rw [hr] at h; simp at h; subst h; rfl
  | error er => rw [hr] at h; simp at h

/-- An executor handed out by the generic initializer always carries the
enabled parsing-error policy. -/
theorem init_flag (l : BaseLanguageModel) (tools : List Tool) (a : String)
    (m : Option BaseChatMemory) (e : AgentExecutor)
    (h : InitializeAgent_init l tools a m = Except.ok e) :
    e.handle_parsing_errors = true := by
  unfold InitializeAgent_init at h
  cases hc : AgentTypeValues.contains a with
  | true => rw [hc] at h; simp at h; subst h; rfl
  | false => rw [hc] at h; simp at h

/-- C1, counterexample: the tool list dupTools holds two distinct tools
sharing the name t, yet prompt/agent assembly succeeds — construction of
the JSON recipe returns an executor, no error of any kind is raised, and
the allow-list retains a single entry, silently dropping one duplicate.
The assembler worded as the spec demands would instead have failed with
ToolNameCollisionError. -/
theorem C1_collision_counterexample :
    tool_t1.name = tool_t2.name ∧ tool_t1 ≠ tool_t2 ∧
    construct AgentClass.jsonAgent cfgDup = Except.ok (some (Constructed.exec jsonDupExec)) ∧
    jsonDupExec.agent.allowed_tools = ["t"] ∧
    assemble_spec dupTools JSON_PREF JSON_SUFFIX none = Except.error AssembleError.ToolNameCollisionError :=
  ⟨rfl, by decide, rfl, by decide, by rfl⟩

/-- C1, amended: for every tool list containing two distinct tools with
the same name, prompt/agent assembly does not fail; the recipe builds the
allow-list as the deduplicated name set, which is strictly shorter than
the tool list, so one of the colliding tools is silently dropped from the
allow-list; only the assembler contract worded as the spec demands
rejects the list with ToolNameCollisionError. -/
theorem C1_dedup_amended (toolkit : List Tool) (llm : BaseLanguageModel)
    (h : ¬ (toolkit.map Tool.name).Nodup) :
    (JsonAgent_from_toolkit_and_llm toolkit llm).agent.allowed_tools = pySet (toolkit.map Tool.name) ∧
    (JsonAgent_from_toolkit_and_llm toolkit llm).agent.allowed_tools.length < toolkit.length ∧
    assemble_spec toolkit JSON_PREF JSON_SUFFIX none = Except.error AssembleError.ToolNameCollisionError := by
  refine ⟨rfl, ?_, ?_⟩
  · have hsub : (toolkit.map Tool.name).dedup.Sublist (toolkit.map Tool.name) :=
      List.dedup_sublist _
    have hle := hsub.length_le
    have hne : (toolkit.map Tool.name).dedup ≠ toolkit.map Tool.name := by
      intro he
      exact h (he ▸ List.nodup_dedup (toolkit.map Tool.name))
    have hlt : (toolkit.map Tool.name).dedup.length < (toolkit.map Tool.name).length := by
      rcases lt_or_eq_of_le hle with hlt | heq
      · exact hlt
      · exact absurd (hsub.eq_of_length heq) hne
    show (pySet (toolkit.map Tool.name)).length < toolkit.length
    rw [pySet, ← List.length_map toolkit Tool.name]
    exact hlt
  · simp [assemble_spec, h]

/-- C1, witness for the amended statement at the concrete colliding list. -/
theorem C1_dedup_amended_witness :
    (JsonAgent_from_toolkit_and_llm dupTools llm0).agent.allowed_tools = pySet (dupTools.map Tool.name) ∧
    (JsonAgent_from_toolkit_and_llm dupTools llm0).agent.allowed_tools.length < dupTools.length ∧
    assemble_spec dupTools JSON_PREF JSON_SUFFIX none = Except.error AssembleError.ToolNameCollisionError :=
  C1_dedup_amended dupTools llm0 (by decide)

/-- C2: the relational-database recipe configures its executor with
max_iterations = 15 and the force early-stopping policy, and for every
model that never emits a final answer the run stops with state
StoppedByLimit carrying a non-empty partial answer instead of failing. -/
theorem C2_sql_stops_at_limit (llm : BaseLanguageModel) (uri : String)
    (model : Nat → ModelStep)
    (hne : ∀ i t, model i ≠ ModelStep.finalAnswer t) :
    (SQLAgent_from_toolkit_and_llm llm uri).max_iterations = some 15 ∧
    (SQLAgent_from_toolkit_and_llm llm uri).early_stopping_method = "force" ∧
    runExecutor (SQLAgent_from_toolkit_and_llm llm uri) model = RunState.StoppedByLimit forcedAnswer ∧
    forcedAnswer ≠ "" := by
  refine ⟨rfl, rfl, ?_, by decide⟩
  exact runLoopAux_stops_of_no_final (SQLAgent_from_toolkit_and_llm llm uri) model hne rfl rfl 15 0

/-- C2, witness: a concrete stub model that always proposes a tool call. -/
theorem C2_sql_stops_at_limit_witness :
    (SQLAgent_from_toolkit_and_llm llm0 "sqlite:///db").max_iterations = some 15 ∧
    (SQLAgent_from_toolkit_and_llm llm0 "sqlite:///db").early_stopping_method = "force" ∧
    runExecutor (SQLAgent_from_toolkit_and_llm llm0 "sqlite:///db") stubModel = RunState.StoppedByLimit forcedAnswer ∧
    forcedAnswer ≠ "" :=
  C2_sql_stops_at_limit llm0 "sqlite:///db" stubModel (fun i t h => by simp [stubModel] at h)

/-- C3, counterexample: the JSON recipe constructs its executor without
the parsing-error recovery policy — the flag stays at the framework
default, disabled — so the policy is not enabled for all seven agent
kinds. -/
theorem C3_json_no_recovery_counterexample :
    (JsonAgent_from_toolkit_and_llm demoTools llm0).handle_parsing_errors = false ∧
    (CSVAgent_from_toolkit_and_llm content0 llm0).map AgentExecutor.handle_parsing_errors =
      Except.ok false := by
  exact ⟨rfl, rfl⟩

/-- C3, amended: only the vector-store, vector-store-router,
relational-database and generic-initializer recipes construct their
executors with the parsing-error recovery policy enabled; the JSON and
CSV recipes leave it at the framework default (disabled), and the
autonomous-loop recipe builds an object with no such policy at all. -/
theorem C3_parsing_policy_amended (c : AgentClass) (cfg : KindConfig) (v : Constructed)
    (h : construct c cfg = Except.ok (some v)) :
    parsing_policy v = expected_parsing_policy c := by
  cases c with
  | jsonAgent => simp [construct] at h; subst h; rfl
  | csvAgent =>
    cases hcsv : CSVAgent_from_toolkit_and_llm cfg.csv_content cfg.llm with
    | ok e =>
      simp [construct, hcsv] at h
      subst h
      simp [parsing_policy, expected_parsing_policy, csv_flag cfg.csv_content cfg.llm e hcsv]
    | error er => simp [construct, hcsv] at h
  | agentInitializer =>
    cases hinit : InitializeAgent_init cfg.llm cfg.toolkit cfg.agent cfg.memory with
    | ok e =>
      simp [construct, hinit] at h
      subst h
      simp [parsing_policy, expected_parsing_policy,
        init_flag cfg.llm cfg.toolkit cfg.agent cfg.memory e hinit]
    | error er => simp [construct, hinit] at h
  | vectorStoreAgent => simp [construct] at h; subst h; rfl
  | vectorStoreRouterAgent => simp [construct] at h; subst h; rfl
  | sqlAgent => simp [construct] at h; subst h; rfl
  | autoGPTAgent => simp [construct] at h; subst h; rfl

/-- C3, witness for the amended statement: the vector-store recipe does
enable the policy. -/
theorem C3_parsing_policy_amended_witness :
    parsing_policy vsExec0 = expected_parsing_policy AgentClass.vectorStoreAgent :=
  C3_parsing_policy_amended AgentClass.vectorStoreAgent cfg0 vsExec0 rfl

/-- C4: for every successfully parsed table, the CSV recipe assembles its
prompt with input variables [df, input, agent_scratchpad] and then binds
df to the textual preview of the head of the table; the prompt handed to
the reasoning chain no longer requires df, records the binding, and its
raw template text is unchanged. -/
theorem C4_csv_binding (content : String) (llm : BaseLanguageModel) (df : DataFrame)
    (h : read_csv content = Except.ok df) :
    promptOfR (CSVAgent_from_toolkit_and_llm content llm) = some (csv_bound_prompt df) ∧
    csv_base_prompt.input_variables = ["df", "input", "agent_scratchpad"] ∧
    (csv_bound_prompt df).input_variables = ["input", "agent_scratchpad"] ∧
    (csv_bound_prompt df).template = csv_base_prompt.template ∧
    (csv_bound_prompt df).bound_variables = [("df", dfHeadStr df.head)] := by
  refine ⟨?_, rfl, by rfl, rfl, rfl⟩
  unfold CSVAgent_from_toolkit_and_llm
  rw [h]
  rfl

/-- C4, witness at a concrete two-column table. -/
theorem C4_csv_binding_witness :
    read_csv content0 = Except.ok df0 ∧
    (promptOfR (CSVAgent_from_toolkit_and_llm content0 llm0) = some (csv_bound_prompt df0) ∧
     csv_base_prompt.input_variables = ["df", "input", "agent_scratchpad"] ∧
     (csv_bound_prompt df0).input_variables = ["input", "agent_scratchpad"] ∧
     (csv_bound_prompt df0).template = csv_base_prompt.template ∧
     (csv_bound_prompt df0).bound_variables = [("df", dfHeadStr df0.head)]) :=
  ⟨by rfl, C4_csv_binding content0 llm0 df0 (by rfl)⟩

/-- C5: the relational-database recipe constructs exactly the four tools
run-query, describe-schema, list-tables and check-query-syntax, each
bound to the one connection opened from the URI; only the
check-query-syntax tool carries the secondary query-checking chain over
the QUERY_CHECKER template, and the assembled prompt text begins with
the SQL prompt formatted with the dialect of the connection and the
row-limit constant 10. -/
theorem C5_sql_recipe (llm : BaseLanguageModel) (uri : String) :
    (SQLAgent_from_toolkit_and_llm llm uri).tools.map Tool.name =
      ["run-query", "describe-schema", "list-tables", "check-query-syntax"] ∧
    (SQLAgent_from_toolkit_and_llm llm uri).tools.map Tool.db =
      [some (SQLDatabase_from_uri uri), some (SQLDatabase_from_uri uri),
       some (SQLDatabase_from_uri uri), some (SQLDatabase_from_uri uri)] ∧
    (SQLAgent_from_toolkit_and_llm llm uri).tools.map Tool.llm_chain =
      [none, none, none,
       some { llm := llm
              prompt := { template := QUERY_CHECKER
                          input_variables := ["query", "dialect"]
                          bound_variables := [] } }] ∧
    ∃ rest, (SQLAgent_from_toolkit_and_llm llm uri).agent.llm_chain.prompt.template =
      sql_pref_for (SQLDatabase_from_uri uri).dialect 10 ++ rest :=
  ⟨rfl, rfl, rfl, ⟨_, rfl⟩⟩

/-- C6: the generic initializer rejects every strategy name outside the
closed supported set with UnsupportedStrategyError and constructs
nothing; for every name in the set it constructs the framework executor
for that strategy. -/
theorem C6_strategy_validation (llm : BaseLanguageModel) (tools : List Tool)
    (s : String) (memory : Option BaseChatMemory) :
    (AgentTypeValues.contains s = false →
      InitializeAgent_init llm tools s memory = Except.error ConstructErr.UnsupportedStrategyError) ∧
    (AgentTypeValues.contains s = true →
      InitializeAgent_init llm tools s memory =
        Except.ok (from_agent_and_tools
          { llm_chain := { llm := llm, prompt := builtin_prompt s tools }
            allowed_tools := pySet (tools.map Tool.name) }
          tools false default_max_iterations default_early_stopping_method true true memory)) := by
  constructor
  · intro hc
    simp only [InitializeAgent_init]
    rw [hc]
    simp
  · intro hc
    simp only [InitializeAgent_init]
    rw [hc]
    simp

/-- C6, witness: one unsupported and one supported strategy name. -/
theorem C6_strategy_validation_witness :
    InitializeAgent_init llm0 demoTools "not-a-strategy" none = Except.error ConstructErr.UnsupportedStrategyError ∧
    InitializeAgent_init llm0 demoTools "zero-shot-react-description" none =
      Except.ok (from_agent_and_tools
        { llm_chain := { llm := llm0, prompt := builtin_prompt "zero-shot-react-description" demoTools }
          allowed_tools := pySet (demoTools.map Tool.name) }
        demoTools false default_max_iterations default_early_stopping_method true true none) :=
  ⟨(C6_strategy_validation llm0 demoTools "not-a-strategy" none).1 (by decide),
   (C6_strategy_validation llm0 demoTools "zero-shot-react-description" none).2 (by decide)⟩

/-- C7: resolving a kind string absent from the registry fails with
UnknownKindError, and resolving a present kind followed by construction
with a valid configuration always yields an actual object, never the
None outcome. -/
theorem C7_registry_resolution (kind : String) (c : AgentClass) (cfg : KindConfig) :
    (CUSTOM_AGENTS.lookup kind = none → resolve kind = Except.error RegistryError.UnknownKindError) ∧
    (resolve kind = Except.ok c → validConfig c cfg = true → constructSome c cfg = true) := by
  constructor
  · intro h; unfold resolve; rw [h]
  · intro _hres hval
    cases c with
    | jsonAgent => rfl
    | csvAgent =>
      cases hr : read_csv cfg.csv_content with
      | ok df => simp [constructSome, construct, CSVAgent_from_toolkit_and_llm, hr]
      | error er => simp [validConfig, hr] at hval
    | agentInitializer =>
      simp [validConfig] at hval
      simp [constructSome, construct, InitializeAgent_init, hval]
    | vectorStoreAgent => rfl
    | vectorStoreRouterAgent => rfl
    | sqlAgent => rfl
    | autoGPTAgent => rfl

/-- C7, witness: a concrete absent kind and a concrete present kind. -/
theorem C7_registry_resolution_witness :
    resolve "ZeroShotAgent" = Except.error RegistryError.UnknownKindError ∧
    constructSome AgentClass.jsonAgent cfg0 = true :=
  ⟨(C7_registry_resolution "ZeroShotAgent" AgentClass.jsonAgent cfg0).1 (by rfl),
   (C7_registry_resolution "JsonAgent" AgentClass.jsonAgent cfg0).2 (by rfl) (by rfl)⟩

/-- C8: construction is deterministic and idempotent — two construct
calls with identical configuration (the embedding of the source reads no
clock and no randomness, so each call is the same pure function) yield
objects whose tool allow-lists are equal as sets and whose assembled
prompt texts are byte-identical. -/
theorem C8_construct_idempotent (c : AgentClass) (cfg : KindConfig) (v1 v2 : Constructed)
    (h1 : construct c cfg = Except.ok (some v1))
    (h2 : construct c cfg = Except.ok (some v2)) :
    (allowListOf v1).toFinset = (allowListOf v2).toFinset ∧ promptTextOf v1 = promptTextOf v2 := by
  rw [h1] at h2
  simp at h2
  subst h2
  exact ⟨rfl, rfl⟩

/-- C8, witness: two calls of the JSON recipe at cfg0. -/
theorem C8_construct_idempotent_witness :
    (allowListOf jsonExec0).toFinset = (allowListOf jsonExec0).toFinset ∧
    promptTextOf jsonExec0 = promptTextOf jsonExec0 :=
  C8_construct_idempotent AgentClass.jsonAgent cfg0 jsonExec0 jsonExec0 rfl rfl

/-- C9: every registry key equals the string returned by the registered
recipe self-description operation, and the keys are unique across the
registry. -/
theorem C9_registry_keys :
    (CUSTOM_AGENTS.map Prod.fst).Nodup ∧
    CUSTOM_AGENTS.all (fun p => p.1 == function_name p.2) = true :=
  ⟨by decide, by decide⟩

/-- C10: the autonomous-loop recipe mutates the constructed agent after
the fact — the asynchronous call method is replaced and output_keys is
set to the fixed list [fred] — and the replacement call returns, for
every chat_input and every callbacks value, the same constant structure
whose only key is intermediate_steps holding one step with index 1 and
result fake data, containing no final answer text. -/
theorem C10_autogpt_mutation (ai_name ai_role : String) (llm : BaseLanguageModel)
    (tools : List Tool) (memory : Option BaseChatMemory)
    (chat_input : String) (callbacks : Callbacks) :
    (AutoGPTAgent_init ai_name ai_role llm tools memory).output_keys = ["fred"] ∧
    (AutoGPTAgent_init ai_name ai_role llm tools memory).acall_replaced = true ∧
    AutoGPTAgent_acall chat_input callbacks =
      [("intermediate_steps", [{ index := 1, result := "fake data" }])] ∧
    (AutoGPTAgent_acall chat_input callbacks).map Prod.fst = ["intermediate_steps"] :=
  ⟨rfl, rfl, rfl, rfl⟩
